import Mathlib

/-!
Verification development for the TicketBari server's booking-payment
lifecycle.  The definitions below are a shallow embedding of the
controllers in `src/controllers/bookingsController.js` and the mongoose
schemas in `src/models/{Route,Booking,Payment}.js`.  Documents are mapped
to structures keeping exactly the fields the verified properties touch
(other schema fields are never read or written by the embedded code
paths); collections are association lists keyed by document id; each
`await`-separated storage operation of the source becomes one explicit
read or write of the state.  Mongoose behaviour that matters here is
modelled explicitly:

* `document.save()` runs schema validators (`validateBeforeSave`), so a
  Route save is rejected when `availableQuantity` violates its `min: 1`
  declaration, and runs the schema's `pre('save')` hooks;
* `findOneAndUpdate` / `findByIdAndUpdate` run neither validators nor
  `pre('save')` hooks (the source never passes `runValidators`), and
  update the first matching document, returning null (not an error) when
  nothing matches;
* `findByIdAndUpdate` on a missing id is a no-op.

The external Stripe gateway is a parameter: a partial map from session
ids to session data for retrieval, and supplied fresh identifiers for
session/refund creation.
-/

namespace TicketBari

/-! ### Status enumerations (from the mongoose schema enums) -/

/-- BookingSchema.bookingStatus enum. -/
inductive BookingStatus
  | pending | accepted | rejected | completed | cancelled
deriving DecidableEq, Repr

/-- BookingSchema.status enum (the payment-facing outcome). -/
inductive TripStatus
  | pending | confirmed | cancelled | completed | refunded
deriving DecidableEq, Repr

/-- BookingSchema.paymentStatus enum. -/
inductive PayStatus
  | pending | paid | failed | refunded
deriving DecidableEq, Repr

/-- PaymentSchema.status enum. -/
inductive PaymentStatus
  | pending | processing | completed | failed | cancelled | refunded | disputed
deriving DecidableEq, Repr

/-- PaymentSchema.refund.refundStatus enum. -/
inductive RefundStatus
  | pending | processing | completed | failed
deriving DecidableEq, Repr

/-- The Route.operator field is dynamically shaped in the data: either an
ObjectId string referencing a User, or an embedded operator object
(`createBooking` sniffs `typeof route.operator`). -/
inductive OperatorRef
  | byId (userId : Nat)
  | embedded (name : String)
deriving DecidableEq, Repr

/-! ### Documents -/

/-- Route document (fields the embedded code paths read or write).
`availableQuantity` is declared `min: 1` in RouteSchema; `baseFare` is
`pricing.baseFare`; `scheduleTimeToday` is the timestamp obtained by
combining today's date with `schedule[0].departureTime`, `none` when that
time string is missing or not of the `HH:MM` shape `createBooking`
expects. -/
structure Route where
  availableQuantity : Int
  vendor : Nat
  operator : OperatorRef
  baseFare : Int
  scheduleTimeToday : Option Int
deriving DecidableEq, Repr

/-- Booking document (fields the embedded code paths read or write).
`paymentReceived` is `notifications.paymentReceived`. -/
structure Booking where
  user : Nat
  route : Nat
  vendor : Nat
  bookingStatus : BookingStatus
  bookingQuantity : Int
  departureDate : Int
  totalAmount : Int
  status : TripStatus
  paymentStatus : PayStatus
  paymentReceived : Bool
deriving DecidableEq, Repr

/-- Payment document (fields the embedded code paths read or write).
`transactionId` is `paymentGateway.transactionId`; the fee fields are the
`fees` subdocument; `vendorPayoutAmount` is `vendorPayout.amount`;
`refundStatus`/`refundAmount` come from the `refund` subdocument and
`disputeId` from the `dispute` subdocument. -/
structure Payment where
  booking : Nat
  user : Nat
  amount : Int
  status : PaymentStatus
  transactionId : Option String
  processingFee : Int
  gatewayFee : Int
  platformFee : Int
  totalFees : Int
  vendorPayoutAmount : Int
  refundStatus : Option RefundStatus
  refundAmount : Int
  disputeId : Option String
deriving DecidableEq, Repr

/-- Persistent state: the three collections plus the set of existing user
ids (consulted when `createBooking` resolves an ObjectId operator). -/
structure Db where
  routes : List (Nat × Route)
  bookings : List (Nat × Booking)
  payments : List (Nat × Payment)
  users : List Nat
deriving DecidableEq, Repr

/-! ### Association-list primitives -/

/-- Lookup by document id (mongoose findById / findOne on _id). -/
def getA {α : Type} : List (Nat × α) → Nat → Option α
  | [], _ => none
  | (k, v) :: t, key => if key = k then some v else getA t key

/-- Overwrite the value stored under a document id. -/
def setA {α : Type} : List (Nat × α) → Nat → α → List (Nat × α)
  | [], _, _ => []
  | (k, v) :: t, key, w => if k = key then (k, w) :: setA t key w else (k, v) :: setA t key w

/-- Find the first document satisfying a predicate (mongoose findOne on a
filter), returning id and value. -/
def findA {α : Type} : List (Nat × α) → (α → Bool) → Option (Nat × α)
  | [], _ => none
  | (k, v) :: t, pred => if pred v then some (k, v) else findA t pred

/-- Update the first document satisfying a predicate (mongoose
findOneAndUpdate, also the findOne-mutate-save pattern, which writes back
the one fetched document).  Returns the updated document, when any, and
the new list. -/
def updFirst {α : Type} : List (Nat × α) → (α → Bool) → (α → α) → Option α × List (Nat × α)
  | [], _, _ => (none, [])
  | (k, v) :: t, pred, f =>
    if pred v then (some (f v), (k, f v) :: t)
    else
      let r := updFirst t pred f
      (r.1, (k, v) :: r.2)

theorem getA_setA {α : Type} (l : List (Nat × α)) (k : Nat) (v w : α)
    (h : getA l k = some w) : getA (setA l k v) k = some v := by
  induction l with
  | nil => simp [getA] at h
  | cons hd t ih =>
    obtain ⟨k', v'⟩ := hd
    by_cases hk : k = k'
    · subst hk
      simp [getA, setA]
    · simp [getA, hk] at h
      simp [setA, getA, hk, Ne.symm hk]
      exact ih h

/-! ### Mongoose save behaviour -/

/-- RouteSchema declares `availableQuantity: { min: 1 }`; `route.save()`
runs this validator, so the save succeeds exactly when the new quantity
is at least 1. -/
def routeSaveOk (r : Route) : Bool := 1 ≤ r.availableQuantity

/-- The PaymentSchema `pre('save')` hooks, in declaration order: recompute
`fees.totalFees` as the sum of the three fee components, then set
`vendorPayout.amount` to `amount - totalFees` when the status is
`completed` and the payout amount is still 0.  (The timestamp hooks touch
no field the properties mention.) -/
def paymentSaveHooks (p : Payment) : Payment :=
  let fees := p.processingFee + p.gatewayFee + p.platformFee
  let p1 := { p with totalFees := fees }
  if p1.status = PaymentStatus.completed ∧ p1.vendorPayoutAmount = 0 then
    { p1 with vendorPayoutAmount := p1.amount - fees }
  else p1

/-! ### Request results -/

/-- Error outcomes of the embedded endpoints, one constructor per distinct
thrown error of the source.  `schemaValidationFailed` stands for a
mongoose validation rejection of a `save()`, which the controller does
not catch (no explicit status code is set by the controller there). -/
inductive ApiError
  | missingFields
  | routeNotFound | bookingNotFound | paymentNotFound | vendorNotFound
  | notAuthorized | alreadyProcessed | insufficientTickets
  | noTicketsAvailable | quantityExceedsAvailable
  | invalidDepartureFormat | pastDeparture
  | alreadyPaid | notEnoughTicketsForCheckout | checkoutSessionFailed
  | stripeVerificationFailed
  | onlyCompletedRefundable | paymentAlreadyRefunded
  | schemaValidationFailed
deriving DecidableEq, Repr

/-- Outcome of one endpoint call: a success response with the HTTP code the
controller sets, or a failure carrying the code set before the throw
(`none` when the controller sets no code and the error propagates to the
outer error middleware). -/
inductive ApiResult (α : Type)
  | ok (code : Nat) (data : α)
  | fail (code : Option Nat) (e : ApiError)
deriving DecidableEq, Repr

/-! ### acceptBooking (vendor controller)

The source performs, in order: `Booking.findById`, the three guard
checks, `Route.findById`, the quantity check, `booking.save()` with
`bookingStatus = 'accepted'`, then `route.availableQuantity -=
booking.bookingQuantity; route.save()`.  Each `await` is an atomicity
boundary; the read-and-check phase and the write phase are therefore
separate definitions, composed by `acceptBooking`. -/

/-- The documents a single acceptBooking request has read when it passes
all of its guards. -/
structure AcceptSnapshot where
  bookingId : Nat
  booking : Booking
  route : Route
deriving DecidableEq, Repr

/-- Read-and-check phase of acceptBooking: fetch the booking, check the
caller is its vendor and it is still pending, fetch the route, check the
availability.  No writes. -/
def acceptCheck (db : Db) (bookingId vendorId : Nat) :
    Except (Option Nat × ApiError) AcceptSnapshot :=
  match getA db.bookings bookingId with
  | none => .error (some 404, .bookingNotFound)
  | some booking =>
    if booking.vendor ≠ vendorId then .error (some 403, .notAuthorized)
    else if booking.bookingStatus ≠ BookingStatus.pending then
      .error (some 400, .alreadyProcessed)
    else
      match getA db.routes booking.route with
      | none => .error (some 404, .routeNotFound)
      | some route =>
        if route.availableQuantity < booking.bookingQuantity then
          .error (some 400, .insufficientTickets)
        else .ok ⟨bookingId, booking, route⟩

/-- Write phase of acceptBooking: first `booking.save()` commits the status
change, then the route document that was read earlier is decremented and
saved.  The route save runs the `min: 1` validator; when it fails the
booking write has already been committed and stays. -/
def acceptApply (db : Db) (s : AcceptSnapshot) : ApiResult Unit × Db :=
  let acceptedBooking := { s.booking with bookingStatus := BookingStatus.accepted }
  let db1 := { db with bookings := setA db.bookings s.bookingId acceptedBooking }
  let newRoute := { s.route with
    availableQuantity := s.route.availableQuantity - s.booking.bookingQuantity }
  if routeSaveOk newRoute then
    (.ok 200 (), { db1 with routes := setA db1.routes s.booking.route newRoute })
  else
    (.fail none .schemaValidationFailed, db1)

/-- PUT /api/vendor/bookings/:id/accept. -/
def acceptBooking (db : Db) (bookingId vendorId : Nat) : ApiResult Unit × Db :=
  match acceptCheck db bookingId vendorId with
  | .error e => (.fail e.1 e.2, db)
  | .ok s => acceptApply db s

/-- Two concurrent acceptBooking requests, interleaved so that both finish
their read-and-check phase before either commits — a schedule the
source's `await` boundaries permit, since every document read and write
is a separate round trip and no storage-level conditional update guards
the decrement.  Request A commits first, then request B commits using the
route snapshot it read before A's writes. -/
def acceptTwoInterleaved (db : Db) (b1 v1 b2 v2 : Nat) :
    ApiResult Unit × ApiResult Unit × Db :=
  match acceptCheck db b1 v1, acceptCheck db b2 v2 with
  | .ok s1, .ok s2 =>
    let r1 := acceptApply db s1
    let r2 := acceptApply r1.2 s2
    (r1.1, r2.1, r2.2)
  | .ok s1, .error e2 =>
    let r1 := acceptApply db s1
    (r1.1, .fail e2.1 e2.2, r1.2)
  | .error e1, .ok s2 =>
    let r2 := acceptApply db s2
    (.fail e1.1 e1.2, r2.1, r2.2)
  | .error e1, .error e2 => (.fail e1.1 e1.2, .fail e2.1 e2.2, db)

/-! ### updatePaymentStatus (payments controller)

POST /api/payments/update-payment-status.  The Stripe gateway is a
partial map from checkout-session ids to the session data the code
inspects; `none` models a retrieval failure (the source catches any error
of the verification block, the metadata-mismatch throw and the
payment-not-completed throw included, and rethrows a single 400). -/

/-- The fields of a retrieved Stripe checkout session that the source
inspects: `metadata.bookingId`, whether `payment_status` is the string
`paid`, and `payment_intent` (which may be null). -/
structure StripeSession where
  metadataBookingId : Option Nat
  paid : Bool
  paymentIntent : Option String
deriving DecidableEq, Repr

/-- The external gateway's session store, as seen by session retrieval. -/
def Gateway : Type := String → Option StripeSession

/-- A gateway with no retrievable sessions. -/
def gwEmpty : Gateway := fun _ => none

/-- Socket events the controller emits on the success path. -/
inductive SocketEvent
  | paymentConfirmed (bookingId : Nat)
  | paymentReceived (bookingId : Nat) (amount : Int)
deriving DecidableEq, Repr

/-- Success payload of updatePaymentStatus: the short-circuit response for
an already-paid booking, or the full update response. -/
inductive UpdateOutcome
  | alreadyPaid | updated
deriving DecidableEq, Repr

/-- Result of one updatePaymentStatus call: response, new state, emitted
events (the socket server is attached, so the emission calls run). -/
structure UpdateResult where
  res : ApiResult UpdateOutcome
  db : Db
  events : List SocketEvent
deriving DecidableEq, Repr

/-- The filter `{ booking: bookingId, status: 'pending' }` used by the
payments controller both to match a pending payment for completion and to
look up an existing pending payment at checkout. -/
def pendingPred (bid : Nat) : Payment → Bool :=
  fun p => decide (p.booking = bid ∧ p.status = PaymentStatus.pending)

/-- Tail of the updatePaymentStatus success path: mark the booking
`paymentStatus = 'paid'`, `status = 'confirmed'`, flag the notification,
save it, then `Route.findByIdAndUpdate` with `$inc: { availableQuantity:
-bookingQuantity }` — an update query, so no validator floors it — and
emit the two socket events (the vendor event only when the populated
vendor exists). -/
def commitPaid (db : Db) (bid : Nat) (booking : Booking) : Db × List SocketEvent :=
  let booking1 := { booking with
    paymentStatus := PayStatus.paid
    status := TripStatus.confirmed
    paymentReceived := true }
  let db1 := { db with bookings := setA db.bookings bid booking1 }
  let db2 :=
    match getA db1.routes booking.route with
    | some r =>
      let r1 := { r with availableQuantity := r.availableQuantity - booking.bookingQuantity }
      { db1 with routes := setA db1.routes booking.route r1 }
    | none => db1
  let events :=
    SocketEvent.paymentConfirmed bid ::
      (if db.users.contains booking.vendor then
        [SocketEvent.paymentReceived bid booking.totalAmount] else [])
  (db2, events)

/-- POST /api/payments/update-payment-status with body
`{bookingId, sessionId?}`. -/
def updatePaymentStatus (gw : Gateway) (db : Db) (bookingId : Option Nat)
    (sessionId : Option String) : UpdateResult :=
  match bookingId with
  | none => ⟨.fail (some 400) .missingFields, db, []⟩
  | some bid =>
    match getA db.bookings bid with
    | none => ⟨.fail (some 404) .bookingNotFound, db, []⟩
    | some booking =>
      if booking.paymentStatus = PayStatus.paid then
        ⟨.ok 200 .alreadyPaid, db, []⟩
      else
        match sessionId with
        | some sid =>
          match gw sid with
          | none => ⟨.fail (some 400) .stripeVerificationFailed, db, []⟩
          | some session =>
            if session.metadataBookingId ≠ some bid then
              ⟨.fail (some 400) .stripeVerificationFailed, db, []⟩
            else if ¬ session.paid then
              ⟨.fail (some 400) .stripeVerificationFailed, db, []⟩
            else
              let payments1 :=
                match session.paymentIntent with
                | some _ =>
                  (updFirst db.payments
                    (fun p => decide (p.booking = bid ∧ p.transactionId = some sid))
                    (fun p => { p with status := PaymentStatus.completed })).2
                | none =>
                  (updFirst db.payments (pendingPred bid)
                    (fun p => { p with status := PaymentStatus.completed })).2
              let c := commitPaid { db with payments := payments1 } bid booking
              ⟨.ok 200 .updated, c.1, c.2⟩
        | none =>
          let payments1 :=
            (updFirst db.payments (pendingPred bid)
              (fun p => { p with status := PaymentStatus.completed })).2
          let c := commitPaid { db with payments := payments1 } bid booking
          ⟨.ok 200 .updated, c.1, c.2⟩

/-! ### createCheckoutSession (payments controller)

POST /api/payments/create-checkout-session.  The Stripe
session-creation call is modelled by a supplied fresh session id and a
flag saying whether the call succeeds; a newly inserted payment document
gets a supplied fresh id. -/

structure CheckoutCtx where
  freshSessionId : String
  stripeOk : Bool
  freshPaymentId : Nat
deriving DecidableEq, Repr

/-- The availability guard of createCheckoutSession: the populated route
exists and has fewer tickets than the booking's quantity (a missing route
makes `booking.route` null and the guard is skipped). -/
def checkoutRouteShort (db : Db) (booking : Booking) : Bool :=
  match getA db.routes booking.route with
  | some r => decide (r.availableQuantity < booking.bookingQuantity)
  | none => false

/-- A freshly constructed pending Payment, as built by the source
(defaults from PaymentSchema for the unmentioned fields), after its
`save()` hooks ran. -/
def newPendingPayment (ctx : CheckoutCtx) (bid : Nat) (booking : Booking) : Payment :=
  paymentSaveHooks
    { booking := bid
      user := booking.user
      amount := booking.totalAmount
      status := PaymentStatus.pending
      transactionId := some ctx.freshSessionId
      processingFee := 0, gatewayFee := 0, platformFee := 0, totalFees := 0
      vendorPayoutAmount := 0
      refundStatus := none, refundAmount := 0
      disputeId := none }

/-- POST /api/payments/create-checkout-session with body
`{bookingId, successUrl, cancelUrl}` (`haveUrls` stands for both URLs
being present).  After the gateway call, the source looks for an existing
pending payment of the booking (`findOne` then mutate-and-save, which
writes back that one document) and only creates a new payment when none
exists. -/
def createCheckoutSession (ctx : CheckoutCtx) (db : Db) (bookingId : Option Nat)
    (haveUrls : Bool) : ApiResult (String × Nat) × Db :=
  match bookingId with
  | none => (.fail (some 400) .missingFields, db)
  | some bid =>
    if ¬ haveUrls then (.fail (some 400) .missingFields, db)
    else
      match getA db.bookings bid with
      | none => (.fail (some 404) .bookingNotFound, db)
      | some booking =>
        if booking.paymentStatus = PayStatus.paid then
          (.fail (some 400) .alreadyPaid, db)
        else
          if checkoutRouteShort db booking then
            (.fail (some 400) .notEnoughTicketsForCheckout, db)
          else if ¬ ctx.stripeOk then (.fail (some 500) .checkoutSessionFailed, db)
          else
            match findA db.payments (pendingPred bid) with
            | some _ =>
              let payments1 :=
                (updFirst db.payments (pendingPred bid)
                  (fun p => paymentSaveHooks
                    { p with transactionId := some ctx.freshSessionId })).2
              (.ok 200 (ctx.freshSessionId, bid), { db with payments := payments1 })
            | none =>
              let payments1 := db.payments ++
                [(ctx.freshPaymentId, newPendingPayment ctx bid booking)]
              (.ok 200 (ctx.freshSessionId, bid), { db with payments := payments1 })

/-! ### requestRefund (payments controller)

POST /api/payments/refund.  The Stripe refund call is modelled as
succeeding with a supplied refund id (its outcome is external to this
state).  The payment is fetched by `findOne({_id, user})`; a booking the
payment references is assumed to exist (the source dereferences the
populated booking unconditionally); a missing route makes the
`findByIdAndUpdate` restore a no-op. -/
def requestRefund (refundId : String) (db : Db) (paymentId userId : Nat) :
    ApiResult (String × Int) × Db :=
  match getA db.payments paymentId with
  | none => (.fail (some 404) .paymentNotFound, db)
  | some p =>
    if p.user ≠ userId then (.fail (some 404) .paymentNotFound, db)
    else if p.status ≠ PaymentStatus.completed then
      (.fail (some 400) .onlyCompletedRefundable, db)
    else if p.refundStatus = some RefundStatus.completed then
      (.fail (some 400) .paymentAlreadyRefunded, db)
    else
      let p1 := paymentSaveHooks
        { p with
          status := PaymentStatus.refunded
          refundStatus := some RefundStatus.completed
          refundAmount := p.amount }
      let db1 := { db with payments := setA db.payments paymentId p1 }
      match getA db.bookings p.booking with
      | none => (.ok 200 (refundId, p.amount), db1)
      | some b0 =>
        let b1 := { b0 with
          paymentStatus := PayStatus.refunded
          status := TripStatus.refunded }
        let db2 := { db1 with bookings := setA db1.bookings p.booking b1 }
        let db3 :=
          match getA db2.routes b0.route with
          | some r =>
            let r1 := { r with availableQuantity := r.availableQuantity + b0.bookingQuantity }
            { db2 with routes := setA db2.routes b0.route r1 }
          | none => db2
        (.ok 200 (refundId, p.amount), db3)

/-! ### createBooking (bookings controller)

POST /api/bookings with body `{routeId, quantity, bookingDate?}`.
Parsed dates are timestamps; `bookingDate = some none` models a supplied
date string that parses to NaN, `some (some d)` one that parses to the
timestamp `d`. -/

/-- JS truthiness fallback `route.availableTickets || route.availableQuantity
|| 10`: the Route schema has no `availableTickets` path, so the first
disjunct is always undefined; a zero `availableQuantity` is falsy and
falls through to the literal default 10; any nonzero value, negative
included, is truthy and is used as is. -/
def effectiveTickets (r : Route) : Int :=
  if r.availableQuantity ≠ 0 then r.availableQuantity else 10

/-- JS truthiness fallback `route.price || route.pricing?.baseFare ||
route.fare || 500`: the schema has neither `price` nor `fare`, so this is
`pricing.baseFare` unless that is zero. -/
def effectiveBaseFare (r : Route) : Int :=
  if r.baseFare ≠ 0 then r.baseFare else 500

/-- Vendor resolution of createBooking: an ObjectId operator is looked up
among the users (404 when absent); an embedded operator object is used
directly, with the route's `vendor` id standing in as the vendor's id, so
resolution always succeeds in that shape. -/
def resolveVendor (db : Db) (r : Route) : Option Nat :=
  match r.operator with
  | OperatorRef.byId oid => if db.users.contains oid then some oid else none
  | OperatorRef.embedded _ => some r.vendor

/-- The document createBooking persists: pending in both status fields,
with `totalAmount = baseFare * quantity`. -/
def mkPendingBooking (uid rid vid : Nat) (q dep : Int) (r : Route) : Booking :=
  { user := uid
    route := rid
    vendor := vid
    bookingStatus := BookingStatus.pending
    bookingQuantity := q
    departureDate := dep
    totalAmount := effectiveBaseFare r * q
    status := TripStatus.pending
    paymentStatus := PayStatus.pending
    paymentReceived := false }

/-- POST /api/bookings.  `now` is the request time; `freshBookingId` the id
the store assigns to the created document.  When no bookingDate is sent,
the departure falls back to today's scheduled time-of-day, and when the
schedule has no parseable `HH:MM` time the code uses the current time
(which the subsequent strictly-in-the-future check then rejects). -/
def createBooking (db : Db) (routeId : Option Nat) (quantity : Int)
    (bookingDate : Option (Option Int)) (now : Int) (userId freshBookingId : Nat) :
    ApiResult Nat × Db :=
  match routeId with
  | none => (.fail (some 400) .missingFields, db)
  | some rid =>
    if quantity < 1 then (.fail (some 400) .missingFields, db)
    else
      match getA db.routes rid with
      | none => (.fail (some 404) .routeNotFound, db)
      | some r =>
        if effectiveTickets r ≤ 0 then (.fail (some 400) .noTicketsAvailable, db)
        else if effectiveTickets r < quantity then
          (.fail (some 400) .quantityExceedsAvailable, db)
        else
          let departure : Option Int :=
            match bookingDate with
            | some none => none
            | some (some d) => some d
            | none =>
              match r.scheduleTimeToday with
              | some t => some t
              | none => some now
          match departure with
          | none => (.fail (some 400) .invalidDepartureFormat, db)
          | some dep =>
            if dep ≤ now then (.fail (some 400) .pastDeparture, db)
            else
              match resolveVendor db r with
              | none => (.fail (some 404) .vendorNotFound, db)
              | some vid =>
                (.ok 201 freshBookingId,
                  { db with bookings := db.bookings ++
                      [(freshBookingId, mkPendingBooking userId rid vid quantity dep r)] })

/-! ### Concrete fixtures used by the evaluation theorems -/

/-- A route owned by vendor 7, embedded operator, base fare 500, scheduled
departure today at timestamp 3600, with the given quantity. -/
def routeFx (q : Int) : Route :=
  { availableQuantity := q
    vendor := 7
    operator := OperatorRef.embedded "GreenLine"
    baseFare := 500
    scheduleTimeToday := some 3600 }

/-- A pending booking of user 5 for route 1 and vendor 7 with the given
quantity. -/
def bookingFx (q : Int) : Booking :=
  { user := 5
    route := 1
    vendor := 7
    bookingStatus := BookingStatus.pending
    bookingQuantity := q
    departureDate := 7200
    totalAmount := 500 * q
    status := TripStatus.pending
    paymentStatus := PayStatus.pending
    paymentReceived := false }

def c1Db : Db :=
  { routes := [(1, routeFx 3)], bookings := [(10, bookingFx 2)], payments := [], users := [7, 5] }

/-- C1: the claimed invariant `availableQuantity >= 0` fails on the code.
Route 1 starts with availableQuantity 3 and booking 10 requests quantity
2.  `acceptBooking` succeeds and decrements the quantity to 1; the
subsequent `updatePaymentStatus` call for the same booking succeeds and
applies its unconditional `$inc` decrement again, driving the quantity to
-1 — below zero, against the claim that the sequential pair never does. -/
theorem c1_double_decrement_negative :
    (acceptBooking c1Db 10 7).1 = ApiResult.ok 200 () ∧
    (getA (acceptBooking c1Db 10 7).2.routes 1).map Route.availableQuantity = some 1 ∧
    (updatePaymentStatus gwEmpty (acceptBooking c1Db 10 7).2 (some 10) none).res
      = ApiResult.ok 200 UpdateOutcome.updated ∧
    (getA (updatePaymentStatus gwEmpty (acceptBooking c1Db 10 7).2 (some 10) none).db.routes 1).map
      Route.availableQuantity = some (-1) := by decide

def c2Db : Db :=
  { routes := [(1, routeFx 3)]
    bookings := [(21, bookingFx 2), (22, bookingFx 2)]
    payments := []
    users := [7, 5] }

/-- C2: the claimed concurrency guarantee fails on the code.  Route 1 has
availableQuantity 3; two concurrent `acceptBooking` requests for
quantities 2 and 2 (combined 4 > 3) are interleaved so that both pass
their read-and-check phase before either commits — a schedule the
read-then-write implementation permits.  Both requests succeed, both
bookings end up accepted (4 seats sold of 3), and the final
availableQuantity is 1, not 0: the second commit overwrote the first
decrement with its stale snapshot. -/
theorem c2_interleaved_oversell :
    (acceptTwoInterleaved c2Db 21 7 22 7).1 = ApiResult.ok 200 () ∧
    (acceptTwoInterleaved c2Db 21 7 22 7).2.1 = ApiResult.ok 200 () ∧
    (getA (acceptTwoInterleaved c2Db 21 7 22 7).2.2.bookings 21).map Booking.bookingStatus
      = some BookingStatus.accepted ∧
    (getA (acceptTwoInterleaved c2Db 21 7 22 7).2.2.bookings 22).map Booking.bookingStatus
      = some BookingStatus.accepted ∧
    (getA (acceptTwoInterleaved c2Db 21 7 22 7).2.2.routes 1).map Route.availableQuantity
      = some 1 := by decide

def c3Db : Db :=
  { routes := [(1, routeFx 2)], bookings := [(10, bookingFx 2)], payments := [], users := [7, 5] }

/-- C3: the two writes of `acceptBooking` are not a single logical unit.
Route 1 has availableQuantity 2 and booking 10 requests quantity 2: the
inventory decrement fails (the route save violates the schema `min: 1`
validator), yet the booking-status write, committed first, stays — the
final state has bookingStatus accepted and the route quantity unchanged,
against the claim that a failed decrement leaves the booking in its prior
state. -/
theorem c3_booking_committed_despite_failed_decrement :
    (acceptBooking c3Db 10 7).1 = ApiResult.fail none ApiError.schemaValidationFailed ∧
    (getA (acceptBooking c3Db 10 7).2.bookings 10).map Booking.bookingStatus
      = some BookingStatus.accepted ∧
    (getA (acceptBooking c3Db 10 7).2.routes 1).map Route.availableQuantity = some 2 := by decide

def c4Db : Db :=
  { routes := [(1, routeFx 5)], bookings := [(11, bookingFx 5)], payments := [], users := [7, 5] }

/-- C4 (counterexample): the boundary case fails on the code.  Route 1 has
availableQuantity 5 and pending booking 11 requests exactly 5;
`acceptBooking` by the booking's vendor does not succeed — the route save
is rejected by the schema `min: 1` validator — and availableQuantity
stays 5 instead of the claimed 0 (while the booking was nevertheless left
accepted). -/
theorem c4_boundary_accept_fails :
    (acceptBooking c4Db 11 7).1 = ApiResult.fail none ApiError.schemaValidationFailed ∧
    (getA (acceptBooking c4Db 11 7).2.routes 1).map Route.availableQuantity = some 5 ∧
    (getA (acceptBooking c4Db 11 7).2.bookings 11).map Booking.bookingStatus
      = some BookingStatus.accepted := by decide

/-- When every guard of acceptBooking's read-and-check phase passes, the
check yields the snapshot of the two documents read. -/
theorem acceptCheck_ok (db : Db) (bid : Nat) (b : Booking) (r : Route)
    (hb : getA db.bookings bid = some b)
    (hp : b.bookingStatus = BookingStatus.pending)
    (hr : getA db.routes b.route = some r)
    (hq : ¬ r.availableQuantity < b.bookingQuantity) :
    acceptCheck db bid b.vendor = .ok ⟨bid, b, r⟩ := by
  simp [acceptCheck, hb, hp, hr, hq]

/-- C4 (amended): for every pending booking whose route has strictly more
available quantity than the booking requests, acceptBooking called by the
booking's vendor succeeds, sets bookingStatus accepted, and decrements
the route's availableQuantity by exactly bookingQuantity.  In the
boundary case bookingQuantity = availableQuantity the call does not
succeed: the decrement to zero is rejected by the RouteSchema `min: 1`
validator on the route save, availableQuantity is left unchanged, and the
booking — whose save was committed first — is nevertheless left
accepted. -/
theorem c4_accept_strict_success_boundary_fails (db : Db) (bid : Nat) (b : Booking) (r : Route)
    (hb : getA db.bookings bid = some b)
    (hp : b.bookingStatus = BookingStatus.pending)
    (hr : getA db.routes b.route = some r) :
    (b.bookingQuantity < r.availableQuantity →
      (acceptBooking db bid b.vendor).1 = ApiResult.ok 200 () ∧
      getA (acceptBooking db bid b.vendor).2.bookings bid
        = some { b with bookingStatus := BookingStatus.accepted } ∧
      getA (acceptBooking db bid b.vendor).2.routes b.route
        = some { r with availableQuantity := r.availableQuantity - b.bookingQuantity }) ∧
    (b.bookingQuantity = r.availableQuantity →
      (acceptBooking db bid b.vendor).1 = ApiResult.fail none ApiError.schemaValidationFailed ∧
      getA (acceptBooking db bid b.vendor).2.bookings bid
        = some { b with bookingStatus := BookingStatus.accepted } ∧
      getA (acceptBooking db bid b.vendor).2.routes b.route = some r) := by
  refine ⟨fun hlt => ?_, fun heq => ?_⟩
  · have hq : ¬ r.availableQuantity < b.bookingQuantity := by omega
    have hck := acceptCheck_ok db bid b r hb hp hr hq
    have hsave : routeSaveOk
        { r with availableQuantity := r.availableQuantity - b.bookingQuantity } = true := by
      simp only [routeSaveOk, decide_eq_true_eq]
      omega
    simp only [acceptBooking, hck, acceptApply, hsave, if_true]
    exact ⟨by trivial, getA_setA _ _ _ _ hb, getA_setA _ _ _ _ hr⟩
  · have hq : ¬ r.availableQuantity < b.bookingQuantity := by omega
    have hck := acceptCheck_ok db bid b r hb hp hr hq
    have hsave : routeSaveOk
        { r with availableQuantity := r.availableQuantity - b.bookingQuantity } = false := by
      simp only [routeSaveOk, decide_eq_false_iff_not]
      omega
    simp only [acceptBooking, hck, acceptApply, hsave, Bool.false_eq_true, if_false]
    exact ⟨by trivial, getA_setA _ _ _ _ hb, hr⟩

def c4WDb : Db :=
  { routes := [(1, routeFx 3)], bookings := [(12, bookingFx 2)], payments := [], users := [7, 5] }

/-- Witness for the amended C4 theorem: route 1 holds 3 seats, pending
booking 12 requests 2 (strictly fewer), and the accept by vendor 7
succeeds leaving 1 seat. -/
theorem c4_accept_strict_success_witness :
    (acceptBooking c4WDb 12 (bookingFx 2).vendor).1 = ApiResult.ok 200 () ∧
    getA (acceptBooking c4WDb 12 (bookingFx 2).vendor).2.bookings 12
      = some { bookingFx 2 with bookingStatus := BookingStatus.accepted } ∧
    getA (acceptBooking c4WDb 12 (bookingFx 2).vendor).2.routes (bookingFx 2).route
      = some { routeFx 3 with
          availableQuantity := (routeFx 3).availableQuantity - (bookingFx 2).bookingQuantity } :=
  (c4_accept_strict_success_boundary_fails c4WDb 12 (bookingFx 2) (routeFx 3)
    (by decide) (by decide) (by decide)).1 (by decide)

/-- The success tail of updatePaymentStatus stores the booking back with
paymentStatus paid, status confirmed and the notification flag set. -/
theorem commitPaid_getA_booking (db : Db) (bid : Nat) (b : Booking)
    (hb : getA db.bookings bid = some b) :
    getA (commitPaid db bid b).1.bookings bid
      = some { b with
          paymentStatus := PayStatus.paid
          status := TripStatus.confirmed
          paymentReceived := true } := by
  simp only [commitPaid]
  split <;> exact getA_setA _ _ _ _ hb

/-- C5: payment confirmation is idempotent.  For every store, gateway,
booking id and session id, running update-payment-status twice leaves
exactly the state one run produces, and the second run emits no events;
moreover a booking already marked paid short-circuits to the success
response with the state untouched and nothing emitted — in particular no
second inventory decrement happens. -/
theorem c5_confirmation_idempotent (gw : Gateway) (db : Db) (bid : Nat) (sid : Option String) :
    (updatePaymentStatus gw (updatePaymentStatus gw db (some bid) sid).db (some bid) sid).db
      = (updatePaymentStatus gw db (some bid) sid).db
  ∧ (updatePaymentStatus gw (updatePaymentStatus gw db (some bid) sid).db (some bid) sid).events
      = []
  ∧ (∀ b, getA db.bookings bid = some b → b.paymentStatus = PayStatus.paid →
      updatePaymentStatus gw db (some bid) sid
        = ⟨ApiResult.ok 200 UpdateOutcome.alreadyPaid, db, []⟩) := by
  have short : ∀ (d : Db) (b : Booking), getA d.bookings bid = some b →
      b.paymentStatus = PayStatus.paid →
      updatePaymentStatus gw d (some bid) sid
        = ⟨ApiResult.ok 200 UpdateOutcome.alreadyPaid, d, []⟩ := by
    intro d b hb hp
    simp [updatePaymentStatus, hb, hp]
  have key : ∀ d : Db,
      (∃ res, updatePaymentStatus gw d (some bid) sid = ⟨res, d, []⟩)
      ∨ ∃ b, getA (updatePaymentStatus gw d (some bid) sid).db.bookings bid = some b
           ∧ b.paymentStatus = PayStatus.paid := by
    intro d
    rcases hb : getA d.bookings bid with _ | b
    · exact .inl ⟨ApiResult.fail (some 404) ApiError.bookingNotFound,
        by simp [updatePaymentStatus, hb]⟩
    · by_cases hp : b.paymentStatus = PayStatus.paid
      · exact .inl ⟨ApiResult.ok 200 UpdateOutcome.alreadyPaid, short d b hb hp⟩
      · rcases sid with _ | s
        · right
          simp only [updatePaymentStatus, hb, hp, if_false]
          exact ⟨_, commitPaid_getA_booking _ bid b hb, rfl⟩
        · rcases hgw : gw s with _ | session
          · exact .inl ⟨ApiResult.fail (some 400) ApiError.stripeVerificationFailed,
              by simp [updatePaymentStatus, hb, hp, hgw]⟩
          · by_cases hm : session.metadataBookingId = some bid
            · by_cases hpd : session.paid = true
              · right
                rcases hI : session.paymentIntent with _ | intent <;>
                · simp only [updatePaymentStatus, hb, hp, hgw, hm, hpd, hI, if_false, if_true,
                    not_true, not_false_iff, ne_eq, not_not, ite_self, if_neg, ite_false,
                    ite_true, Bool.not_true, reduceCtorEq, not_false_eq_true]
                  exact ⟨_, commitPaid_getA_booking _ bid b hb, rfl⟩
              · exact .inl ⟨ApiResult.fail (some 400) ApiError.stripeVerificationFailed,
                  by simp [updatePaymentStatus, hb, hp, hgw, hm, hpd]⟩
            · exact .inl ⟨ApiResult.fail (some 400) ApiError.stripeVerificationFailed,
                by simp [updatePaymentStatus, hb, hp, hgw, hm]⟩
  refine ⟨?_, ?_, fun b hb hp => short db b hb hp⟩ <;>
  · rcases key db with ⟨res, hres⟩ | ⟨b1, hb1, hp1⟩
    · rw [show (updatePaymentStatus gw db (some bid) sid).db = db from by rw [hres], hres]
    · rw [short (updatePaymentStatus gw db (some bid) sid).db b1 hb1 hp1]

def c5Db : Db :=
  { routes := [(1, routeFx 3)]
    bookings := [(10, { bookingFx 2 with paymentStatus := PayStatus.paid })]
    payments := []
    users := [7, 5] }

/-- Witness for C5: a booking already marked paid makes
update-payment-status return the success short-circuit with the store
untouched and no events. -/
theorem c5_confirmation_idempotent_witness :
    updatePaymentStatus gwEmpty c5Db (some 10) none
      = ⟨ApiResult.ok 200 UpdateOutcome.alreadyPaid, c5Db, []⟩ :=
  (c5_confirmation_idempotent gwEmpty c5Db 10 none).2.2
    { bookingFx 2 with paymentStatus := PayStatus.paid } (by decide) (by decide)

/-! ### C6: uniqueness of pending payments -/

/-- Number of payments of the store that are pending for a given booking. -/
def pendingCount : List (Nat × Payment) → Nat → Nat
  | [], _ => 0
  | (_, p) :: t, bid =>
    (if p.booking = bid ∧ p.status = PaymentStatus.pending then 1 else 0) + pendingCount t bid

/-- The PaymentSchema unique compound index over (booking, status) with
`partialFilterExpression: { status: 'pending' }`: at most one pending
payment exists per booking. -/
def pendingUnique (payments : List (Nat × Payment)) : Prop :=
  ∀ bid, pendingCount payments bid ≤ 1

theorem pendingCount_updFirst (l : List (Nat × Payment)) (pred : Payment → Bool)
    (f : Payment → Payment)
    (hf : ∀ p, (f p).booking = p.booking ∧ (f p).status = p.status) (bid : Nat) :
    pendingCount (updFirst l pred f).2 bid = pendingCount l bid := by
  induction l with
  | nil => rfl
  | cons hd t ih =>
    obtain ⟨k, v⟩ := hd
    by_cases hv : pred v = true
    · simp [updFirst, hv, pendingCount, (hf v).1, (hf v).2]
    · simp [updFirst, hv, pendingCount, ih]

theorem updFirst_length {α : Type} (l : List (Nat × α)) (pred : α → Bool) (f : α → α) :
    (updFirst l pred f).2.length = l.length := by
  induction l with
  | nil => rfl
  | cons hd t ih =>
    obtain ⟨k, v⟩ := hd
    by_cases hv : pred v = true
    · simp [updFirst, hv]
    · simp [updFirst, hv, ih]

theorem pendingCount_of_findA_none (l : List (Nat × Payment)) (bid : Nat)
    (h : findA l (pendingPred bid) = none) : pendingCount l bid = 0 := by
  induction l with
  | nil => rfl
  | cons hd t ih =>
    obtain ⟨k, v⟩ := hd
    by_cases hv : v.booking = bid ∧ v.status = PaymentStatus.pending
    · simp [findA, pendingPred, hv] at h
    · simp [findA, pendingPred, hv] at h
      simp [pendingCount, hv, ih h]

theorem pendingCount_append_one (l : List (Nat × Payment)) (k : Nat) (p : Payment) (bid : Nat) :
    pendingCount (l ++ [(k, p)]) bid
      = pendingCount l bid
        + (if p.booking = bid ∧ p.status = PaymentStatus.pending then 1 else 0) := by
  induction l with
  | nil => simp [pendingCount]
  | cons hd t ih =>
    obtain ⟨k', v⟩ := hd
    simp [pendingCount, ih]
    omega

theorem findA_updFirst_self {α : Type} (l : List (Nat × α)) (pred : α → Bool) (f : α → α)
    (hf : ∀ p, pred p = true → pred (f p) = true) (k : Nat) (v : α)
    (h : findA l pred = some (k, v)) :
    findA (updFirst l pred f).2 pred = some (k, f v) := by
  induction l with
  | nil => simp [findA] at h
  | cons hd t ih =>
    obtain ⟨k', v'⟩ := hd
    by_cases hv : pred v' = true
    · simp only [findA, hv, if_true, Option.some.injEq, Prod.mk.injEq] at h
      obtain ⟨hk, hveq⟩ := h
      subst hk
      subst hveq
      simp [updFirst, hv, findA, hf v' hv]
    · simp only [findA, hv, Bool.false_eq_true, if_false] at h
      simp [updFirst, hv, findA, ih h]

theorem paymentSaveHooks_preserves (p : Payment) :
    (paymentSaveHooks p).booking = p.booking ∧ (paymentSaveHooks p).status = p.status ∧
    (paymentSaveHooks p).transactionId = p.transactionId := by
  simp only [paymentSaveHooks]
  split <;> simp

/-- On the success path (booking exists and is unpaid, inventory check
passes, gateway call succeeds), createCheckoutSession reduces to the
reuse-or-create step on the payments collection. -/
theorem createCheckoutSession_success_reduce (ctx : CheckoutCtx) (db : Db) (bid : Nat)
    (b : Booking) (hb : getA db.bookings bid = some b)
    (hp : b.paymentStatus ≠ PayStatus.paid)
    (hroute : checkoutRouteShort db b = false) (hstripe : ctx.stripeOk = true) :
    createCheckoutSession ctx db (some bid) true
      = match findA db.payments (pendingPred bid) with
        | some _ =>
          (.ok 200 (ctx.freshSessionId, bid),
            { db with payments := (updFirst db.payments (pendingPred bid)
                (fun p => paymentSaveHooks
                  { p with transactionId := some ctx.freshSessionId })).2 })
        | none =>
          (.ok 200 (ctx.freshSessionId, bid),
            { db with payments :=
                db.payments ++ [(ctx.freshPaymentId, newPendingPayment ctx bid b)] }) := by
  simp [createCheckoutSession, hb, hp, hroute, hstripe]

/-- C6: at most one pending payment per booking.  Given a store satisfying
the unique partial index over (booking, status=pending), any
createCheckoutSession call preserves it; and on the success path the
controller reuses an existing pending payment of the booking — the
payments collection does not grow and the reused document, still pending,
carries the fresh gateway session id — while a new pending payment is
appended exactly when none existed. -/
theorem c6_pending_payment_unique_and_reused (ctx : CheckoutCtx) (db : Db)
    (hinv : pendingUnique db.payments) :
    (∀ bookingId haveUrls,
      pendingUnique (createCheckoutSession ctx db bookingId haveUrls).2.payments)
  ∧ (∀ bid b, getA db.bookings bid = some b → b.paymentStatus ≠ PayStatus.paid →
      checkoutRouteShort db b = false → ctx.stripeOk = true →
      (∀ k v, findA db.payments (pendingPred bid) = some (k, v) →
        (createCheckoutSession ctx db (some bid) true).2.payments.length
            = db.payments.length
        ∧ findA (createCheckoutSession ctx db (some bid) true).2.payments (pendingPred bid)
            = some (k, paymentSaveHooks { v with transactionId := some ctx.freshSessionId }))
      ∧ (findA db.payments (pendingPred bid) = none →
        (createCheckoutSession ctx db (some bid) true).2.payments
          = db.payments ++ [(ctx.freshPaymentId, newPendingPayment ctx bid b)])) := by
  have hookf : ∀ p : Payment,
      (paymentSaveHooks { p with transactionId := some ctx.freshSessionId }).booking = p.booking
      ∧ (paymentSaveHooks { p with transactionId := some ctx.freshSessionId }).status
          = p.status := by
    intro p
    have h := paymentSaveHooks_preserves { p with transactionId := some ctx.freshSessionId }
    exact ⟨h.1, h.2.1⟩
  constructor
  · intro bookingId haveUrls
    rcases bookingId with _ | bid
    · exact hinv
    · rcases haveUrls with _ | _
      · exact hinv
      · rcases hb : getA db.bookings bid with _ | b
        · simpa [createCheckoutSession, hb] using hinv
        · by_cases hp : b.paymentStatus = PayStatus.paid
          · simpa [createCheckoutSession, hb, hp] using hinv
          · by_cases hroute : checkoutRouteShort db b = true
            · simpa [createCheckoutSession, hb, hp, hroute] using hinv
            · by_cases hstripe : ctx.stripeOk = true
              · rw [createCheckoutSession_success_reduce ctx db bid b hb hp
                  (by simpa using hroute) hstripe]
                rcases hfind : findA db.payments (pendingPred bid) with _ | kv
                · intro bid'
                  rw [pendingCount_append_one]
                  have hbk : (newPendingPayment ctx bid b).booking = bid :=
                    (paymentSaveHooks_preserves _).1
                  have hst : (newPendingPayment ctx bid b).status = PaymentStatus.pending :=
                    (paymentSaveHooks_preserves _).2.1
                  by_cases hb' : bid' = bid
                  · rw [hb', pendingCount_of_findA_none db.payments bid hfind]
                    simp [hbk, hst]
                  · have hnew : ¬ ((newPendingPayment ctx bid b).booking = bid'
                        ∧ (newPendingPayment ctx bid b).status = PaymentStatus.pending) := by
                      intro hc
                      exact hb' (hc.1.symm.trans hbk)
                    simpa [hnew] using hinv bid'
                · intro bid'
                  rw [pendingCount_updFirst _ _ _ hookf]
                  exact hinv bid'
              · simpa [createCheckoutSession, hb, hp, hroute, hstripe] using hinv
  · intro bid b hb hp hroute hstripe
    rw [createCheckoutSession_success_reduce ctx db bid b hb hp hroute hstripe]
    constructor
    · intro k v hfind
      rw [hfind]
      refine ⟨updFirst_length _ _ _, ?_⟩
      refine findA_updFirst_self _ _ _ ?_ k v hfind
      intro p hpred
      have h := hookf p
      simp only [pendingPred, decide_eq_true_eq] at hpred ⊢
      exact ⟨by rw [h.1]; exact hpred.1, by rw [h.2]; exact hpred.2⟩
    · intro hfind
      rw [hfind]

/-- A pending payment of user 5 for booking 10 over 1000 BDT with an old
gateway session reference. -/
def paymentFx : Payment :=
  { booking := 10
    user := 5
    amount := 1000
    status := PaymentStatus.pending
    transactionId := some "cs_old"
    processingFee := 0, gatewayFee := 0, platformFee := 0, totalFees := 0
    vendorPayoutAmount := 0
    refundStatus := none, refundAmount := 0
    disputeId := none }

def ctxFx : CheckoutCtx :=
  { freshSessionId := "cs_new", stripeOk := true, freshPaymentId := 32 }

def c6Db : Db :=
  { routes := [(1, routeFx 3)]
    bookings := [(10, bookingFx 2)]
    payments := [(31, paymentFx)]
    users := [7, 5] }

theorem c6Db_pendingUnique : pendingUnique c6Db.payments := by
  intro bid
  show pendingCount [(31, paymentFx)] bid ≤ 1
  simp only [pendingCount]
  split <;> omega

/-- Witness for C6: with one pending payment for booking 10 on file, a new
checkout reuses it — the collection keeps its size, the uniqueness
invariant still holds, and the reused document carries the new session
id. -/
theorem c6_pending_payment_unique_and_reused_witness :
    pendingUnique (createCheckoutSession ctxFx c6Db (some 10) true).2.payments
  ∧ (createCheckoutSession ctxFx c6Db (some 10) true).2.payments.length
      = c6Db.payments.length
  ∧ findA (createCheckoutSession ctxFx c6Db (some 10) true).2.payments (pendingPred 10)
      = some (31, paymentSaveHooks
          { paymentFx with transactionId := some ctxFx.freshSessionId }) := by
  have h := c6_pending_payment_unique_and_reused ctxFx c6Db c6Db_pendingUnique
  have h2 := (h.2 10 (bookingFx 2) (by decide) (by decide) (by decide) rfl).1 31 paymentFx
    (by decide)
  exact ⟨h.1 (some 10) true, h2.1, h2.2⟩

/-! ### C7: createBooking validation -/

/-- A route with zero remaining quantity (and no other pricing overrides). -/
def c7Route : Route :=
  { availableQuantity := 0
    vendor := 7
    operator := OperatorRef.embedded "GreenLine"
    baseFare := 500
    scheduleTimeToday := some 3600 }

def c7Db : Db := { routes := [(1, c7Route)], bookings := [], payments := [], users := [7, 5] }

/-- C7 (counterexample): the claim requires createBooking to fail whenever
the route's availableQuantity is not positive and whenever the quantity
exceeds it, but on a route with availableQuantity 0 the truthiness
fallback `availableTickets || availableQuantity || 10` replaces the falsy
0 with the default 10, so booking quantity 1 with a future departure
succeeds and a pending booking is created. -/
theorem c7_zero_quantity_booking_succeeds :
    (createBooking c7Db (some 1) 1 (some (some 100)) 0 5 40).1 = ApiResult.ok 201 40 ∧
    (getA (createBooking c7Db (some 1) 1 (some (some 100)) 0 5 40).2.bookings 40).map
      Booking.bookingStatus = some BookingStatus.pending ∧
    (getA c7Db.routes 1).map Route.availableQuantity = some 0 := by decide

/-- C7 (amended): createBooking validates against the effective ticket
count `availableTickets || availableQuantity || 10` — so a zero
availableQuantity falls back to 10 and is not rejected, while a negative
one is.  For an existing route and a positive requested quantity: the
call fails 400 when the effective count is not positive; fails 400 when
the quantity exceeds the effective count; fails 400 with the
past-departure error when the supplied departure date is not strictly in
the future; and when the quantity fits, the date is in the future and the
vendor resolves, it creates the booking with both status fields pending. -/
theorem c7_create_booking_validation (db : Db) (rid : Nat) (q now : Int) (uid fid : Nat)
    (r : Route) (hr : getA db.routes rid = some r) (hq : 1 ≤ q) :
    (effectiveTickets r ≤ 0 →
      ∀ bd, createBooking db (some rid) q bd now uid fid
        = (.fail (some 400) .noTicketsAvailable, db))
  ∧ (0 < effectiveTickets r → effectiveTickets r < q →
      ∀ bd, createBooking db (some rid) q bd now uid fid
        = (.fail (some 400) .quantityExceedsAvailable, db))
  ∧ (q ≤ effectiveTickets r →
      ∀ d, d ≤ now →
        createBooking db (some rid) q (some (some d)) now uid fid
          = (.fail (some 400) .pastDeparture, db))
  ∧ (q ≤ effectiveTickets r →
      ∀ d, now < d → ∀ vid, resolveVendor db r = some vid →
        createBooking db (some rid) q (some (some d)) now uid fid
          = (.ok 201 fid,
             { db with bookings := db.bookings ++
                  [(fid, mkPendingBooking uid rid vid q d r)] })) := by
  have hq1 : ¬ q < 1 := by omega
  refine ⟨?_, ?_, ?_, ?_⟩
  · intro hle bd
    simp [createBooking, hq1, hr, hle]
  · intro hpos hlt bd
    have h1 : ¬ effectiveTickets r ≤ 0 := by omega
    simp [createBooking, hq1, hr, h1, hlt]
  · intro hfit d hd
    have h1 : ¬ effectiveTickets r ≤ 0 := by omega
    have h2 : ¬ effectiveTickets r < q := by omega
    simp [createBooking, hq1, hr, h1, h2, hd]
  · intro hfit d hd vid hv
    have h1 : ¬ effectiveTickets r ≤ 0 := by omega
    have h2 : ¬ effectiveTickets r < q := by omega
    have h3 : ¬ d ≤ now := by omega
    simp [createBooking, hq1, hr, h1, h2, h3, hv]

/-- Witness for the amended C7 theorem: on route 1 with quantity 3 and
base fare 500, a request for 2 tickets departing later than now succeeds
and appends the pending booking. -/
theorem c7_create_booking_validation_witness :
    createBooking c4WDb (some 1) 2 (some (some 100)) 0 5 41
      = (.ok 201 41,
         { c4WDb with bookings := c4WDb.bookings ++
              [(41, mkPendingBooking 5 1 7 2 100 (routeFx 3))] }) :=
  (c7_create_booking_validation c4WDb 1 2 0 5 41 (routeFx 3) (by decide)
    (by decide)).2.2.2 (by decide) 100 (by decide) 7 (by decide)

/-! ### C8: requestRefund guards -/

/-- A completed payment of user 5 with an open dispute and no completed
refund. -/
def c8Payment : Payment :=
  { booking := 10
    user := 5
    amount := 1000
    status := PaymentStatus.completed
    transactionId := some "pi_1"
    processingFee := 0, gatewayFee := 0, platformFee := 0, totalFees := 0
    vendorPayoutAmount := 1000
    refundStatus := none, refundAmount := 0
    disputeId := some "dp_1" }

def c8Db : Db :=
  { routes := [(1, routeFx 3)]
    bookings := [(10, { bookingFx 2 with
        paymentStatus := PayStatus.paid, status := TripStatus.confirmed })]
    payments := [(31, c8Payment)]
    users := [7, 5] }

/-- C8 (counterexample): payment 31 is completed and carries an open
dispute (dispute.disputeId set); per the claim requestRefund must fail
with AlreadyRefunded, but the controller never consults the dispute
sub-record: the call succeeds and the payment becomes refunded. -/
theorem c8_open_dispute_refund_succeeds :
    (getA c8Db.payments 31).map Payment.disputeId = some (some "dp_1") ∧
    (requestRefund "re_1" c8Db 31 5).1 = ApiResult.ok 200 ("re_1", 1000) ∧
    (getA (requestRefund "re_1" c8Db 31 5).2.payments 31).map Payment.status
      = some PaymentStatus.refunded := by decide

/-- C8 (amended): requestRefund fails with NotFound when no payment with
the given id owned by the requesting user exists; fails with
NotRefundable when the payment's status is not completed; fails with
AlreadyRefunded when the refund sub-record's status is already completed;
and in every remaining case — the dispute sub-record is never consulted,
so an open dispute does not block — it proceeds and issues the refund. -/
theorem c8_refund_guards (rid : String) (db : Db) (pid uid : Nat) :
    (getA db.payments pid = none →
      requestRefund rid db pid uid = (.fail (some 404) .paymentNotFound, db))
  ∧ (∀ p, getA db.payments pid = some p → p.user ≠ uid →
      requestRefund rid db pid uid = (.fail (some 404) .paymentNotFound, db))
  ∧ (∀ p, getA db.payments pid = some p → p.user = uid →
      p.status ≠ PaymentStatus.completed →
      requestRefund rid db pid uid = (.fail (some 400) .onlyCompletedRefundable, db))
  ∧ (∀ p, getA db.payments pid = some p → p.user = uid →
      p.status = PaymentStatus.completed →
      p.refundStatus = some RefundStatus.completed →
      requestRefund rid db pid uid = (.fail (some 400) .paymentAlreadyRefunded, db))
  ∧ (∀ p, getA db.payments pid = some p → p.user = uid →
      p.status = PaymentStatus.completed →
      p.refundStatus ≠ some RefundStatus.completed →
      (requestRefund rid db pid uid).1 = ApiResult.ok 200 (rid, p.amount)) := by
  refine ⟨?_, ?_, ?_, ?_, ?_⟩
  · intro h
    simp [requestRefund, h]
  · intro p hp hu
    simp [requestRefund, hp, hu]
  · intro p hp hu hs
    simp [requestRefund, hp, hu, hs]
  · intro p hp hu hs hrf
    simp [requestRefund, hp, hu, hs, hrf]
  · intro p hp hu hs hrf
    simp only [requestRefund, hp, hu, hs, hrf]
    rcases hbk : getA db.bookings p.booking with _ | b0
    · simp [hbk]
    · rcases hrt : getA db.routes b0.route with _ | r0 <;> simp [hbk, hrt]

/-- Witness for the amended C8 theorem: a completed, not-yet-refunded
payment is refunded with the supplied gateway refund id and the payment's
amount. -/
theorem c8_refund_guards_witness :
    (requestRefund "re_2" c8Db 31 5).1 = ApiResult.ok 200 ("re_2", c8Payment.amount) :=
  (c8_refund_guards "re_2" c8Db 31 5).2.2.2.2 c8Payment (by decide) (by decide)
    (by decide) (by decide)

/-! ### C9: vendorPayout.amount -/

/-- A pending payment of 100 BDT with zero fees awaiting confirmation. -/
def c9Payment : Payment :=
  { booking := 10
    user := 5
    amount := 100
    status := PaymentStatus.pending
    transactionId := some "cs_1"
    processingFee := 0, gatewayFee := 0, platformFee := 0, totalFees := 0
    vendorPayoutAmount := 0
    refundStatus := none, refundAmount := 0
    disputeId := none }

def c9Db : Db :=
  { routes := [(1, routeFx 5)]
    bookings := [(10, bookingFx 2)]
    payments := [(31, c9Payment)]
    users := [7, 5] }

/-- C9 (counterexample): the confirmation path of updatePaymentStatus
marks payment 31 completed through findOneAndUpdate, which bypasses the
PaymentSchema save hooks: after the call the payment's status is
completed but vendorPayout.amount is still 0, not the claimed
amount - totalFees = 100. -/
theorem c9_confirmation_skips_payout :
    (getA (updatePaymentStatus gwEmpty c9Db (some 10) none).db.payments 31).map Payment.status
      = some PaymentStatus.completed ∧
    (getA (updatePaymentStatus gwEmpty c9Db (some 10) none).db.payments 31).map
      Payment.vendorPayoutAmount = some 0 ∧
    (getA c9Db.payments 31).map (fun p => p.amount - p.totalFees) = some 100 := by decide

theorem getA_updFirst_preserve {α β : Type} (l : List (Nat × α)) (pred : α → Bool)
    (f : α → α) (g : α → β) (hf : ∀ v, g (f v) = g v) (k : Nat) :
    (getA (updFirst l pred f).2 k).map g = (getA l k).map g := by
  induction l with
  | nil => rfl
  | cons hd t ih =>
    obtain ⟨k', v⟩ := hd
    by_cases hv : pred v = true
    · by_cases hk : k = k' <;> simp [updFirst, hv, getA, hk, hf]
    · by_cases hk : k = k' <;> simp [updFirst, hv, getA, hk, ih]

theorem commitPaid_payments (d : Db) (bid : Nat) (b : Booking) :
    (commitPaid d bid b).1.payments = d.payments := by
  simp only [commitPaid]
  split <;> rfl

/-- Every updatePaymentStatus call either leaves the payments collection
unchanged or rewrites it by completing the first matching payment via
findOneAndUpdate. -/
theorem updatePaymentStatus_payments_shape (gw : Gateway) (db : Db) (bookingId : Option Nat)
    (sid : Option String) :
    (updatePaymentStatus gw db bookingId sid).db.payments = db.payments
    ∨ ∃ pred, (updatePaymentStatus gw db bookingId sid).db.payments
        = (updFirst db.payments pred (fun p => { p with status := PaymentStatus.completed })).2 := by
  rcases bookingId with _ | bid
  · left; rfl
  · rcases hb : getA db.bookings bid with _ | b
    · left; simp [updatePaymentStatus, hb]
    · by_cases hp : b.paymentStatus = PayStatus.paid
      · left; simp [updatePaymentStatus, hb, hp]
      · rcases sid with _ | s
        · right
          refine ⟨pendingPred bid, ?_⟩
          simp only [updatePaymentStatus, hb, hp, if_false]
          rw [commitPaid_payments]
        · rcases hgw : gw s with _ | session
          · left; simp [updatePaymentStatus, hb, hp, hgw]
          · by_cases hm : session.metadataBookingId = some bid
            · by_cases hpd : session.paid = true
              · right
                rcases hI : session.paymentIntent with _ | intent
                · refine ⟨pendingPred bid, ?_⟩
                  simp only [updatePaymentStatus, hb, hp, hgw, hm, hpd, hI, if_false, if_true,
                    not_true, not_false_iff, ne_eq, not_not, ite_self, ite_false, ite_true,
                    Bool.not_true, reduceCtorEq, not_false_eq_true]
                  rw [commitPaid_payments]
                · refine ⟨fun p => decide (p.booking = bid ∧ p.transactionId = some s), ?_⟩
                  simp only [updatePaymentStatus, hb, hp, hgw, hm, hpd, hI, if_false, if_true,
                    not_true, not_false_iff, ne_eq, not_not, ite_self, ite_false, ite_true,
                    Bool.not_true, reduceCtorEq, not_false_eq_true]
                  rw [commitPaid_payments]
              · left; simp [updatePaymentStatus, hb, hp, hgw, hm, hpd]
            · left; simp [updatePaymentStatus, hb, hp, hgw, hm]

/-- C9 (amended): vendorPayout.amount is established only by the document
save hook: a `save()` of a payment whose status is completed and whose
payout amount is still 0 sets it to amount - totalFees (with totalFees
recomputed as the sum of the three fee components by the preceding hook);
a save of a payment whose payout amount is already nonzero leaves it
untouched; and the confirmation path of updatePaymentStatus, which
completes payments through findOneAndUpdate, never changes any payment's
vendorPayout.amount at all — so marking a payment completed there does
not establish the payout. -/
theorem c9_payout_set_only_by_save_hook (p : Payment) (gw : Gateway) (db : Db)
    (bookingId : Option Nat) (sid : Option String) :
    (p.status = PaymentStatus.completed → p.vendorPayoutAmount = 0 →
      (paymentSaveHooks p).vendorPayoutAmount
        = p.amount - (p.processingFee + p.gatewayFee + p.platformFee)
      ∧ (paymentSaveHooks p).totalFees = p.processingFee + p.gatewayFee + p.platformFee)
  ∧ (p.vendorPayoutAmount ≠ 0 →
      (paymentSaveHooks p).vendorPayoutAmount = p.vendorPayoutAmount)
  ∧ (∀ pid q, getA db.payments pid = some q →
      (getA (updatePaymentStatus gw db bookingId sid).db.payments pid).map
        Payment.vendorPayoutAmount = some q.vendorPayoutAmount) := by
  refine ⟨?_, ?_, ?_⟩
  · intro hs h0
    simp [paymentSaveHooks, hs, h0]
  · intro h0
    simp only [paymentSaveHooks]
    split
    · rename_i hcond
      exact absurd hcond.2 h0
    · rfl
  · intro pid q hq
    rcases updatePaymentStatus_payments_shape gw db bookingId sid with h | ⟨pred, h⟩
    · rw [h, hq]
      rfl
    · rw [h, getA_updFirst_preserve db.payments pred
        (fun p => { p with status := PaymentStatus.completed })
        Payment.vendorPayoutAmount (fun v => rfl) pid, hq]
      rfl

/-- Witness for the amended C9 theorem: saving completed payment-shaped
data with zero payout sets the payout to amount minus the recomputed
fees, and the concrete confirmation run leaves payment 31's payout at its
prior value 0. -/
theorem c9_payout_set_only_by_save_hook_witness :
    (paymentSaveHooks { c9Payment with status := PaymentStatus.completed }).vendorPayoutAmount
      = 100
  ∧ (getA (updatePaymentStatus gwEmpty c9Db (some 10) none).db.payments 31).map
      Payment.vendorPayoutAmount = some c9Payment.vendorPayoutAmount := by
  have h := c9_payout_set_only_by_save_hook
    { c9Payment with status := PaymentStatus.completed } gwEmpty c9Db (some 10) none
  exact ⟨(h.1 rfl rfl).1, h.2.2 31 c9Payment (by decide)⟩

/-! ### C10: the direct (no session id) confirmation path -/

theorem commitPaid_getA_route (d : Db) (bid : Nat) (b : Booking) (r : Route)
    (hr : getA d.routes b.route = some r) :
    getA (commitPaid d bid b).1.routes b.route
      = some { r with availableQuantity := r.availableQuantity - b.bookingQuantity } := by
  simp only [commitPaid, hr]
  exact getA_setA _ _ _ _ hr

/-- C10: for every existing booking not yet marked paid, calling
update-payment-status with only a bookingId succeeds, marks the booking
paid and confirmed, decrements the referenced route's availableQuantity
by bookingQuantity through the unconditional `$inc`, and does all this
independently of the gateway — the call never consults it — and with no
requirement on the payments collection (the hypotheses say nothing about
it; a missing pending payment does not cause failure). -/
theorem c10_direct_update_paid_no_gateway (gw : Gateway) (db : Db) (bid : Nat)
    (b : Booking) (r : Route)
    (hb : getA db.bookings bid = some b)
    (hp : b.paymentStatus ≠ PayStatus.paid)
    (hr : getA db.routes b.route = some r) :
    (updatePaymentStatus gw db (some bid) none).res = ApiResult.ok 200 UpdateOutcome.updated
  ∧ getA (updatePaymentStatus gw db (some bid) none).db.bookings bid
      = some { b with
          paymentStatus := PayStatus.paid
          status := TripStatus.confirmed
          paymentReceived := true }
  ∧ getA (updatePaymentStatus gw db (some bid) none).db.routes b.route
      = some { r with availableQuantity := r.availableQuantity - b.bookingQuantity }
  ∧ (∀ gw2, updatePaymentStatus gw2 db (some bid) none
      = updatePaymentStatus gw db (some bid) none) := by
  refine ⟨?_, ?_, ?_, fun gw2 => rfl⟩
  · simp [updatePaymentStatus, hb, hp]
  · simp only [updatePaymentStatus, hb, hp, if_false]
    exact commitPaid_getA_booking _ bid b hb
  · simp only [updatePaymentStatus, hb, hp, if_false]
    exact commitPaid_getA_route _ bid b r hr

def c10Db : Db :=
  { routes := [(2, routeFx 4)]
    bookings := [(13, { bookingFx 3 with route := 2 })]
    payments := []
    users := [7, 5] }

/-- Witness for C10: booking 13 (quantity 3, unpaid, route 2 holding 4)
with an empty payments collection — the direct call still succeeds, the
booking becomes paid and confirmed, and the route drops to 1. -/
theorem c10_direct_update_paid_no_gateway_witness :
    (updatePaymentStatus gwEmpty c10Db (some 13) none).res
      = ApiResult.ok 200 UpdateOutcome.updated
  ∧ getA (updatePaymentStatus gwEmpty c10Db (some 13) none).db.bookings 13
      = some { bookingFx 3 with
          route := 2
          paymentStatus := PayStatus.paid
          status := TripStatus.confirmed
          paymentReceived := true }
  ∧ getA (updatePaymentStatus gwEmpty c10Db (some 13) none).db.routes 2
      = some { routeFx 4 with availableQuantity := 1 } := by
  have h := c10_direct_update_paid_no_gateway gwEmpty c10Db 13
    { bookingFx 3 with route := 2 } (routeFx 4) (by decide) (by decide) (by decide)
  exact ⟨h.1, h.2.1, h.2.2.1⟩

end TicketBari
